import Mathlib

set_option maxRecDepth 8000

/-!
Shallow embedding of `fgb_fb_bot/main.py` (Follower Greeter Bot).

Python strings are modelled as Lean `String`s viewed as their lists of code
points (`String.data`); all string operations below are defined on that view.
Python's `str.lower` is modelled per code point with `Char.toLower` (ASCII
case mapping), which agrees with CPython on every string appearing in the
program and its claims.  A Python expression that can raise (dict indexing,
`str.format`) is modelled with `Option`, `none` standing for the exception.
-/

namespace FgbBot

/-- `startsWithCL pat l` holds when `pat` is an initial segment of `l`. -/
def startsWithCL : List Char → List Char → Bool
  | [], _ => true
  | _ :: _, [] => false
  | p :: ps, b :: bs => p == b && startsWithCL ps bs

/-- `hasInfixCL pat l` holds when `pat` occurs contiguously inside `l`. -/
def hasInfixCL (pat : List Char) : List Char → Bool
  | [] => pat.isEmpty
  | b :: bs => startsWithCL pat (b :: bs) || hasInfixCL pat bs

/-- Python `pat in s` (substring containment). -/
def strContains (s pat : String) : Bool := hasInfixCL pat.data s.data

/-- Python `s.lower()`, per code point. -/
def lowerStr (s : String) : String := String.mk (s.data.map Char.toLower)

/-- The characters Python `str.strip()` removes. -/
def pySpace (c : Char) : Bool :=
  c == ' ' || c == '\t' || c == '\n' || c == '\r' || c == '\x0b' || c == '\x0c'

/-- Drop leading whitespace characters. -/
def dropWS : List Char → List Char
  | [] => []
  | c :: cs => if pySpace c then dropWS cs else c :: cs

/-- Python `s.strip()`: remove leading and trailing whitespace. -/
def stripStr (s : String) : String :=
  String.mk ((dropWS (dropWS s.data).reverse).reverse)

/-- Last-wins lookup in an association list: the value a Python dict built from
the pairs in order gives for key `k`, `none` when the key is absent. -/
def hGet (h : List (String × String)) (k : String) : Option String :=
  (h.reverse.find? (fun p => p.1 == k)).map (fun p => p.2)

/-- The dict comprehension that lowercases every header name. -/
def lowerHeaders (headers : List (String × String)) : List (String × String) :=
  headers.map (fun p => (lowerStr p.1, p.2))

/-- `main.py` `detect_platform`: rough detector for which platform sent the
webhook, from the request headers (modelled as name/value pairs). -/
def detect_platform (headers : List (String × String)) : String :=
  let h := lowerHeaders headers
  match hGet h "x-hub-signature" with
  | some v => if strContains (lowerStr v) "instagram" then "instagram" else "facebook"
  | none =>
    match hGet h "tiktok-signature" with
    | some _ => "tiktok"
    | none =>
      match hGet h "x-twitter-auth" with
      | some _ => "x"
      | none => "unknown"

/-- `main.py` `urgent_words`. -/
def urgent_words : List String :=
  ["help", "urgent", "problem", "question",
   "issue", "support", "can you", "please", "???"]

/-- The code points of the literal iterated over at `main.py` line 49: the five
emoji U+1F642, U+1F60A, U+1F622, U+1F62D, U+2764 followed by the variation
selector U+FE0F (the source writes the heart as ❤️ = U+2764 U+FE0F). -/
def emojiSignal : List Char := ['🙂', '😊', '😢', '😭', '❤', '\uFE0F']

/-- `main.py` `needs_manual_reply`: guess if a human should look at this
message. -/
def needs_manual_reply (text : String) : Bool :=
  if text = "" then false
  else
    let t := lowerStr text
    if urgent_words.any (fun w => strContains t w) then true
    else if t.length > 40 then true
    else if emojiSignal.any (fun ch => text.data.contains ch) then true
    else false

/-- `main.py` `nurse_greeting`. -/
def nurse_greeting (name : String) : String :=
  "Hello " ++ name ++ ". How are you today? Is there anything you need?"

/-- `main.py` `pick`. -/
def pick (lst : List String) : String :=
  match lst with
  | [] => ""
  | x :: _ => x

/-- First-match lookup among the keyword arguments passed to `format`. -/
def lookupKw (kw : List (String × String)) (k : String) : Option String :=
  (kw.find? (fun p => p.1 == k)).map (fun p => p.2)

/-- Core of Python `str.format` restricted to plain named fields, which is all
the program's templates use.  The first argument is `none` outside braces and
`some acc` while reading a field name (accumulated reversed); `none` as result
models the ValueError/KeyError `format` raises on a malformed template or a
field not supplied. -/
def formatGo (kw : List (String × String)) : Option (List Char) → List Char → Option (List Char)
  | none, [] => some []
  | some _, [] => none
  | none, c :: cs =>
    if c == '\x7b' then formatGo kw (some []) cs
    else if c == '\x7d' then none
    else (formatGo kw none cs).map (fun out => c :: out)
  | some acc, c :: cs =>
    if c == '\x7d' then
      match lookupKw kw (String.mk acc.reverse) with
      | none => none
      | some v => (formatGo kw none cs).map (fun out => v.data ++ out)
    else formatGo kw (some (c :: acc)) cs

/-- `main.py` `render_template`: `t.format(**kw)`, `none` when it raises. -/
def render_template (t : String) (kw : List (String × String)) : Option String :=
  (formatGo kw none t.data).map String.mk

/-- `main.py` `is_spam`. -/
def is_spam (t : String) : Bool :=
  let t2 := stripStr (lowerStr t)
  ["buy followers", "crypto", "viagra", "casino", "loan"].any (fun x => strContains t2 x)

/-- The environment-derived configuration (`BRAND_NAME` and the four nurse
image URLs). -/
structure Config where
  BRAND_NAME : String
  NURSE_MEDIA_URL : String
  NURSE_CURTAIN_URL : String
  NURSE_BED_URL : String
  NURSE_NIL_URL : String
deriving Repr, DecidableEq

/-- The configuration when none of the environment variables is set. -/
def defaultConfig : Config where
  BRAND_NAME := "Captain Lethargy"
  NURSE_MEDIA_URL := ""
  NURSE_CURTAIN_URL := ""
  NURSE_BED_URL := ""
  NURSE_NIL_URL := ""

/-- `main.py` `Message`. -/
structure Message where
  name : String := "friend"
  text : String
deriving Repr, DecidableEq

/-- The JSON object the handlers return: `nurse_images`, when present, is the
list of key/URL pairs in order. -/
structure ReplyPayload where
  reply : String
  platform : String
  manual_required : Bool
  nurse_images : Option (List (String × String))
deriving Repr, DecidableEq

/-- The one template of `DEFAULT_TEMPLATES["welcome"]["warm"]`. -/
def welcomeTemplate : String :=
  "Hey \x7bNAME\x7d! I’m \x7bBRAND_NAME\x7d. What are you into — guitars, lyrics, or good vibes?"

/-- The one template of `DEFAULT_TEMPLATES["probe"]["pro"]`. -/
def probeTemplate : String :=
  "Hello \x7bNAME\x7d. Are you interested in new releases, catalogue links, or something else?"

/-- The one template of `DEFAULT_TEMPLATES["boundary"]["pro"]`. -/
def boundaryTemplate : String :=
  "Hello \x7bNAME\x7d. This inbox is for music-related chat."

/-- `main.py` `DEFAULT_TEMPLATES`: category → style → list of templates. -/
def DEFAULT_TEMPLATES : List (String × List (String × List String)) :=
  [("welcome", [("warm", [welcomeTemplate])]),
   ("probe", [("pro", [probeTemplate])]),
   ("boundary", [("pro", [boundaryTemplate])])]

/-- Lookup in a literal Python dict (keys are unique, so first match). -/
def dictFind {α : Type} (d : List (String × α)) (k : String) : Option α :=
  (d.find? (fun p => p.1 == k)).map (fun p => p.2)

/-- `DEFAULT_TEMPLATES[cat][sty]`; `none` models a KeyError. -/
def tableLookup (cat sty : String) : Option (List String) :=
  (dictFind DEFAULT_TEMPLATES cat).bind (fun m => dictFind m sty)

/-- The `nurse_images` block built from the configured URLs. -/
def nurse_images (cfg : Config) : List (String × String) :=
  [("main", cfg.NURSE_MEDIA_URL), ("curtain", cfg.NURSE_CURTAIN_URL),
   ("bed", cfg.NURSE_BED_URL), ("nil_by_mouth", cfg.NURSE_NIL_URL)]

/-- The greeting words checked by branch 3 of the handler. -/
def greetWords : List String := ["hi", "hello", "hey", "yo"]

/-- `main.py` `/reply` handler.  `none` models an uncaught exception (which
the totality theorem below shows never happens). -/
def reply (cfg : Config) (msg : Message) (headers : List (String × String)) :
    Option ReplyPayload :=
  let platform := detect_platform headers
  let manual_required := needs_manual_reply msg.text
  if is_spam msg.text then
    (tableLookup "boundary" "pro").bind fun ts =>
      (render_template (pick ts) [("NAME", msg.name), ("BRAND_NAME", cfg.BRAND_NAME)]).map fun r =>
        { reply := r, platform := platform, manual_required := manual_required,
          nurse_images := none }
  else
    let t := lowerStr msg.text
    if strContains t "nurse" then
      some { reply := nurse_greeting msg.name, platform := platform,
             manual_required := manual_required, nurse_images := some (nurse_images cfg) }
    else if greetWords.any (fun w => strContains t w) then
      (tableLookup "welcome" "warm").bind fun ts =>
        (render_template (pick ts) [("NAME", msg.name), ("BRAND_NAME", cfg.BRAND_NAME)]).map fun r =>
          { reply := r, platform := platform, manual_required := manual_required,
            nurse_images := none }
    else
      (tableLookup "probe" "pro").bind fun ts =>
        (render_template (pick ts) [("NAME", msg.name), ("BRAND_NAME", cfg.BRAND_NAME)]).map fun r =>
          { reply := r, platform := platform, manual_required := manual_required,
            nurse_images := none }

/-- `main.py` `/test-nurse` handler. -/
def test_nurse (cfg : Config) (headers : List (String × String)) : ReplyPayload :=
  let msg : Message := { name := "Keith", text := "nurse" }
  let platform := detect_platform headers
  let manual_required := needs_manual_reply msg.text
  { reply := nurse_greeting msg.name, platform := platform,
    manual_required := manual_required, nurse_images := some (nurse_images cfg) }

/-- Spec-side: the rendered boundary/pro reply. -/
def boundaryReply (name : String) : String :=
  "Hello " ++ name ++ ". This inbox is for music-related chat."

/-- Spec-side: the rendered welcome/warm reply. -/
def welcomeReply (name brand : String) : String :=
  "Hey " ++ (name ++ ("! I’m " ++ (brand ++ ". What are you into — guitars, lyrics, or good vibes?")))

/-- Spec-side: the rendered probe/pro reply. -/
def probeReply (name : String) : String :=
  "Hello " ++ name ++ ". Are you interested in new releases, catalogue links, or something else?"

/-- Spec-side: some urgency substring occurs in the lowercased text. -/
def hasUrgentWord (text : String) : Bool :=
  urgent_words.any (fun w => strContains (lowerStr text) w)

/-- Spec-side: the text contains one of the characters the code checks. -/
def hasEmojiSignal (text : String) : Bool :=
  emojiSignal.any (fun ch => text.data.contains ch)

/-- The five emoji the spec speaks of ("5 specific emoji characters"). -/
def fiveEmoji : List Char := ['🙂', '😊', '😢', '😭', '❤']

/-- Spec-side: the text contains one of the five emoji. -/
def hasFiveEmoji (text : String) : Bool :=
  fiveEmoji.any (fun ch => text.data.contains ch)

/-- Spec-side: the lowercased text contains one of the greeting words. -/
def greetAny (text : String) : Bool :=
  greetWords.any (fun w => strContains (lowerStr text) w)

/-- The named fields a template references, in order; `none` when the template
is malformed (an unbalanced brace). -/
def fieldsOf : Option (List Char) → List Char → Option (List String)
  | none, [] => some []
  | some _, [] => none
  | none, c :: cs =>
    if c == '\x7b' then fieldsOf (some []) cs
    else if c == '\x7d' then none
    else fieldsOf none cs
  | some acc, c :: cs =>
    if c == '\x7d' then (fieldsOf none cs).map (fun fs => String.mk acc.reverse :: fs)
    else fieldsOf (some (c :: acc)) cs

/-- The placeholders a template string references. -/
def templateFields (t : String) : Option (List String) := fieldsOf none t.data

/-! ### Shared lemmas about the template table, the renderer and the handler -/

theorem tlookup_boundary : tableLookup "boundary" "pro" = some [boundaryTemplate] := rfl

theorem tlookup_welcome : tableLookup "welcome" "warm" = some [welcomeTemplate] := rfl

theorem tlookup_probe : tableLookup "probe" "pro" = some [probeTemplate] := rfl

theorem render_boundary_eq (name brand : String) :
    render_template boundaryTemplate [("NAME", name), ("BRAND_NAME", brand)] =
      some (boundaryReply name) := rfl

theorem render_welcome_eq (name brand : String) :
    render_template welcomeTemplate [("NAME", name), ("BRAND_NAME", brand)] =
      some (welcomeReply name brand) := rfl

theorem render_probe_eq (name brand : String) :
    render_template probeTemplate [("NAME", name), ("BRAND_NAME", brand)] =
      some (probeReply name) := rfl

theorem formatGo_isSome_iff (kw : List (String × String)) :
    ∀ (cs : List Char) (mode : Option (List Char)),
      ((formatGo kw mode cs).isSome = true ↔
        ∃ fs, fieldsOf mode cs = some fs ∧ ∀ f ∈ fs, (lookupKw kw f).isSome = true) := by
  intro cs
  induction cs with
  | nil =>
    intro mode
    cases mode <;> simp [formatGo, fieldsOf]
  | cons c cs ih =>
    intro mode
    cases mode with
    | none =>
      by_cases h1 : c == '\x7b'
      · simp [formatGo, fieldsOf, h1, ih]
      · by_cases h2 : c == '\x7d'
        · simp [formatGo, fieldsOf, h1, h2]
        · simp [formatGo, fieldsOf, h1, h2, ih]
    | some acc =>
      by_cases h2 : c == '\x7d'
      · cases hk : lookupKw kw (String.mk acc.reverse) with
        | none => simp [formatGo, fieldsOf, h2, hk, Option.map_eq_some']
        | some v => simp [formatGo, fieldsOf, h2, hk, ih, Option.map_eq_some']
      · simp [formatGo, fieldsOf, h2, ih]

theorem reply_spam_eq (cfg : Config) (msg : Message) (headers : List (String × String))
    (h : is_spam msg.text = true) :
    reply cfg msg headers =
      some { reply := boundaryReply msg.name, platform := detect_platform headers,
             manual_required := needs_manual_reply msg.text, nurse_images := none } := by
  simp [reply, h, tlookup_boundary, pick, render_boundary_eq]

theorem reply_nurse_eq (cfg : Config) (msg : Message) (headers : List (String × String))
    (h1 : is_spam msg.text = false)
    (h2 : strContains (lowerStr msg.text) "nurse" = true) :
    reply cfg msg headers =
      some { reply := nurse_greeting msg.name, platform := detect_platform headers,
             manual_required := needs_manual_reply msg.text,
             nurse_images := some (nurse_images cfg) } := by
  simp [reply, h1, h2]

theorem reply_greet_eq (cfg : Config) (msg : Message) (headers : List (String × String))
    (h1 : is_spam msg.text = false)
    (h2 : strContains (lowerStr msg.text) "nurse" = false)
    (h3 : greetAny msg.text = true) :
    reply cfg msg headers =
      some { reply := welcomeReply msg.name cfg.BRAND_NAME, platform := detect_platform headers,
             manual_required := needs_manual_reply msg.text, nurse_images := none } := by
  have h3' : greetWords.any (fun w => strContains (lowerStr msg.text) w) = true := h3
  simp [reply, h1, h2, h3', tlookup_welcome, pick, render_welcome_eq]

theorem reply_default_eq (cfg : Config) (msg : Message) (headers : List (String × String))
    (h1 : is_spam msg.text = false)
    (h2 : strContains (lowerStr msg.text) "nurse" = false)
    (h3 : greetAny msg.text = false) :
    reply cfg msg headers =
      some { reply := probeReply msg.name, platform := detect_platform headers,
             manual_required := needs_manual_reply msg.text, nurse_images := none } := by
  have h3' : greetWords.any (fun w => strContains (lowerStr msg.text) w) = false := h3
  simp [reply, h1, h2, h3', tlookup_probe, pick, render_probe_eq]

/-! ### The claims -/

/-- Claim C1, counterexample: the claim quantifies over every message whose text
contains "nurse", but the spam guard runs first.  The text "Nurse crypto"
contains "nurse" (any case), yet the handler returns the boundary template with
no nurse_images block, and that reply is not the nurse greeting. -/
theorem nurse_claim_counterexample :
    strContains (lowerStr "Nurse crypto") "nurse" = true ∧
    reply defaultConfig { name := "friend", text := "Nurse crypto" } [] =
      some { reply := boundaryReply "friend", platform := "unknown",
             manual_required := false, nurse_images := none } ∧
    boundaryReply "friend" ≠ nurse_greeting "friend" := by
  decide

/-- Claim C1, amended: for every message that is not spam and whose text
contains "nurse" in any case, the handler returns the fixed nurse greeting with
the given name interpolated, and the response carries a nurse_images block with
exactly the 4 keys main, curtain, bed, nil_by_mouth. -/
theorem nurse_reply_amended :
    ∀ (cfg : Config) (msg : Message) (headers : List (String × String)),
      is_spam msg.text = false →
      strContains (lowerStr msg.text) "nurse" = true →
      ∃ p, reply cfg msg headers = some p ∧
        p.reply = nurse_greeting msg.name ∧
        p.nurse_images = some (nurse_images cfg) ∧
        (nurse_images cfg).map Prod.fst = ["main", "curtain", "bed", "nil_by_mouth"] := by
  intro cfg msg headers h1 h2
  exact ⟨_, reply_nurse_eq cfg msg headers h1 h2, rfl, rfl, rfl⟩

/-- Claim C1, witness for the amended theorem at the message "nurse". -/
theorem nurse_reply_amended_witness :
    ∃ p, reply defaultConfig { name := "friend", text := "nurse" } [] = some p ∧
      p.reply = nurse_greeting "friend" ∧
      p.nurse_images = some (nurse_images defaultConfig) ∧
      (nurse_images defaultConfig).map Prod.fst = ["main", "curtain", "bed", "nil_by_mouth"] :=
  nurse_reply_amended defaultConfig { name := "friend", text := "nurse" } []
    (by decide) (by decide)

/-- Claim C2: the handler evaluates its branches in strict priority order with
first match winning — spam gives the boundary/pro template with no nurse_images
key, then "nurse" gives the nurse greeting plus nurse_images, then a greeting
word gives the welcome/warm template, and otherwise the probe/pro template is
the default. -/
theorem reply_priority_order :
    ∀ (cfg : Config) (msg : Message) (headers : List (String × String)),
      (is_spam msg.text = true →
        reply cfg msg headers =
          some { reply := boundaryReply msg.name, platform := detect_platform headers,
                 manual_required := needs_manual_reply msg.text, nurse_images := none }) ∧
      (is_spam msg.text = false → strContains (lowerStr msg.text) "nurse" = true →
        reply cfg msg headers =
          some { reply := nurse_greeting msg.name, platform := detect_platform headers,
                 manual_required := needs_manual_reply msg.text,
                 nurse_images := some (nurse_images cfg) }) ∧
      (is_spam msg.text = false → strContains (lowerStr msg.text) "nurse" = false →
        greetAny msg.text = true →
        reply cfg msg headers =
          some { reply := welcomeReply msg.name cfg.BRAND_NAME,
                 platform := detect_platform headers,
                 manual_required := needs_manual_reply msg.text, nurse_images := none }) ∧
      (is_spam msg.text = false → strContains (lowerStr msg.text) "nurse" = false →
        greetAny msg.text = false →
        reply cfg msg headers =
          some { reply := probeReply msg.name, platform := detect_platform headers,
                 manual_required := needs_manual_reply msg.text, nurse_images := none }) := by
  intro cfg msg headers
  exact ⟨reply_spam_eq cfg msg headers,
         reply_nurse_eq cfg msg headers,
         reply_greet_eq cfg msg headers,
         reply_default_eq cfg msg headers⟩

/-- Claim C2, witness: all four branches exercised at concrete messages. -/
theorem reply_priority_order_witness :
    reply defaultConfig { name := "A", text := "crypto" } [] =
      some { reply := boundaryReply "A", platform := detect_platform [],
             manual_required := needs_manual_reply "crypto", nurse_images := none } ∧
    reply defaultConfig { name := "A", text := "nurse" } [] =
      some { reply := nurse_greeting "A", platform := detect_platform [],
             manual_required := needs_manual_reply "nurse",
             nurse_images := some (nurse_images defaultConfig) } ∧
    reply defaultConfig { name := "A", text := "hey" } [] =
      some { reply := welcomeReply "A" defaultConfig.BRAND_NAME, platform := detect_platform [],
             manual_required := needs_manual_reply "hey", nurse_images := none } ∧
    reply defaultConfig { name := "A", text := "ok" } [] =
      some { reply := probeReply "A", platform := detect_platform [],
             manual_required := needs_manual_reply "ok", nurse_images := none } :=
  ⟨(reply_priority_order defaultConfig { name := "A", text := "crypto" } []).1 (by decide),
   (reply_priority_order defaultConfig { name := "A", text := "nurse" } []).2.1
     (by decide) (by decide),
   (reply_priority_order defaultConfig { name := "A", text := "hey" } []).2.2.1
     (by decide) (by decide) (by decide),
   (reply_priority_order defaultConfig { name := "A", text := "ok" } []).2.2.2
     (by decide) (by decide) (by decide)⟩

/-- Claim C3, counterexample: at the text "x\uFE0F" (an "x" followed by the
bare variation selector U+FE0F, which is not one of the five emoji) the
heuristic returns true although no urgency substring occurs, the length is at
most 40, and none of the five emoji occurs — so "true iff urgency or length
or one of 5 specific emoji characters" is false there: the code checks six
code points, the five emoji and U+FE0F. -/
theorem needs_manual_emoji_counterexample :
    ¬ (needs_manual_reply "x\uFE0F" = true ↔
        hasUrgentWord "x\uFE0F" = true ∨ (lowerStr "x\uFE0F").length > 40 ∨
        hasFiveEmoji "x\uFE0F" = true) := by
  decide

/-- Claim C3, amended: needs_manual_reply returns false for empty text; for
every non-empty text it returns true iff one of the fixed urgency substrings
appears case-insensitively, or the text length exceeds 40, or the text contains
one of the six checked code points (the five emoji plus U+FE0F); in particular
any text longer than 40 characters with no urgent words yields true. -/
theorem needs_manual_reply_spec :
    needs_manual_reply "" = false ∧
    (∀ text, text ≠ "" →
      (needs_manual_reply text = true ↔
        hasUrgentWord text = true ∨ (lowerStr text).length > 40 ∨
        hasEmojiSignal text = true)) ∧
    (∀ text, (lowerStr text).length > 40 → hasUrgentWord text = false →
      needs_manual_reply text = true) := by
  refine ⟨rfl, ?_, ?_⟩
  · intro text hne
    by_cases hA : urgent_words.any (fun w => strContains (lowerStr text) w) = true
    · simp [needs_manual_reply, hne, hasUrgentWord, hasEmojiSignal, hA]
    · have hA' : urgent_words.any (fun w => strContains (lowerStr text) w) = false :=
        Bool.eq_false_iff.mpr hA
      by_cases hL : (lowerStr text).length > 40
      · simp [needs_manual_reply, hne, hasUrgentWord, hasEmojiSignal, hA', hL]
      · by_cases hE : emojiSignal.any (fun ch => text.data.contains ch) = true
        · simp [needs_manual_reply, hne, hasUrgentWord, hasEmojiSignal, hA', hL, hE]
        · have hE' : emojiSignal.any (fun ch => text.data.contains ch) = false :=
            Bool.eq_false_iff.mpr hE
          simp [needs_manual_reply, hne, hasUrgentWord, hasEmojiSignal, hA', hL, hE']
  · intro text hL hU
    have hne : text ≠ "" := by
      intro h
      rw [h] at hL
      exact absurd hL (by decide)
    have hU' : urgent_words.any (fun w => strContains (lowerStr text) w) = false := hU
    simp [needs_manual_reply, hne, hU', hL]

/-- Claim C3, witness: the amended equivalence at "ok then", and a 53-character
text with no urgent words flagged as manual. -/
theorem needs_manual_reply_spec_witness :
    (needs_manual_reply "ok then" = true ↔
      hasUrgentWord "ok then" = true ∨ (lowerStr "ok then").length > 40 ∨
      hasEmojiSignal "ok then" = true) ∧
    needs_manual_reply "abcdefghijklmnopqrstuvwxyz abcdefghijklmnopqrstuvwxyz" = true :=
  ⟨needs_manual_reply_spec.2.1 "ok then" (by decide),
   needs_manual_reply_spec.2.2 "abcdefghijklmnopqrstuvwxyz abcdefghijklmnopqrstuvwxyz"
     (by decide) (by decide)⟩

/-- Claim C4: detect_platform checks headers case-insensitively in fixed
priority order and always answers one of the five tags: an x-hub-signature
value containing "instagram" (any case) gives "instagram", the same header
without it gives "facebook", otherwise a TikTok signature header gives
"tiktok", then an X auth header gives "x", and "unknown" is the default. -/
theorem detect_platform_spec :
    (∀ headers v, hGet (lowerHeaders headers) "x-hub-signature" = some v →
      ((strContains (lowerStr v) "instagram" = true → detect_platform headers = "instagram") ∧
       (strContains (lowerStr v) "instagram" = false → detect_platform headers = "facebook"))) ∧
    (∀ headers, hGet (lowerHeaders headers) "x-hub-signature" = none →
      (hGet (lowerHeaders headers) "tiktok-signature").isSome = true →
      detect_platform headers = "tiktok") ∧
    (∀ headers, hGet (lowerHeaders headers) "x-hub-signature" = none →
      hGet (lowerHeaders headers) "tiktok-signature" = none →
      (hGet (lowerHeaders headers) "x-twitter-auth").isSome = true →
      detect_platform headers = "x") ∧
    (∀ headers, hGet (lowerHeaders headers) "x-hub-signature" = none →
      hGet (lowerHeaders headers) "tiktok-signature" = none →
      hGet (lowerHeaders headers) "x-twitter-auth" = none →
      detect_platform headers = "unknown") ∧
    (∀ headers, detect_platform headers ∈ ["facebook", "instagram", "tiktok", "x", "unknown"]) := by
  refine ⟨?_, ?_, ?_, ?_, ?_⟩
  · intro headers v h
    constructor <;> intro hv <;> simp [detect_platform, h, hv]
  · intro headers h1 h2
    rcases Option.isSome_iff_exists.mp h2 with ⟨w, hw⟩
    simp [detect_platform, h1, hw]
  · intro headers h1 h2 h3
    rcases Option.isSome_iff_exists.mp h3 with ⟨w, hw⟩
    simp [detect_platform, h1, h2, hw]
  · intro headers h1 h2 h3
    simp [detect_platform, h1, h2, h3]
  · intro headers
    rcases hx : hGet (lowerHeaders headers) "x-hub-signature" with _ | v
    · rcases ht : hGet (lowerHeaders headers) "tiktok-signature" with _ | w
      · rcases ha : hGet (lowerHeaders headers) "x-twitter-auth" with _ | u
        · simp [detect_platform, hx, ht, ha]
        · simp [detect_platform, hx, ht, ha]
      · simp [detect_platform, hx, ht]
    · by_cases hv : strContains (lowerStr v) "instagram" = true
      · simp [detect_platform, hx, hv]
      · have hv' : strContains (lowerStr v) "instagram" = false := Bool.eq_false_iff.mpr hv
        simp [detect_platform, hx, hv']

/-- Claim C4, witness: all five outcomes at concrete header sets. -/
theorem detect_platform_spec_witness :
    detect_platform [("X-Hub-Signature", "sha1=InstaGram00")] = "instagram" ∧
    detect_platform [("X-Hub-Signature", "sha1=abc")] = "facebook" ∧
    detect_platform [("Tiktok-Signature", "t=1")] = "tiktok" ∧
    detect_platform [("X-Twitter-Auth", "a")] = "x" ∧
    detect_platform [] = "unknown" :=
  ⟨(detect_platform_spec.1 [("X-Hub-Signature", "sha1=InstaGram00")] "sha1=InstaGram00"
      (by decide)).1 (by decide),
   (detect_platform_spec.1 [("X-Hub-Signature", "sha1=abc")] "sha1=abc"
      (by decide)).2 (by decide),
   detect_platform_spec.2.1 [("Tiktok-Signature", "t=1")] (by decide) (by decide),
   detect_platform_spec.2.2.1 [("X-Twitter-Auth", "a")] (by decide) (by decide) (by decide),
   detect_platform_spec.2.2.2.1 [] (by decide) (by decide) (by decide)⟩

/-- Claim C5: whichever branch fires, the payload carries platform equal to
detect_platform of the headers and manual_required equal to needs_manual_reply
of the text. -/
theorem reply_flags_independent :
    ∀ (cfg : Config) (msg : Message) (headers : List (String × String)),
      ∃ p, reply cfg msg headers = some p ∧
        p.platform = detect_platform headers ∧
        p.manual_required = needs_manual_reply msg.text := by
  intro cfg msg headers
  cases hs : is_spam msg.text with
  | true => exact ⟨_, reply_spam_eq cfg msg headers hs, rfl, rfl⟩
  | false =>
    cases hn : strContains (lowerStr msg.text) "nurse" with
    | true => exact ⟨_, reply_nurse_eq cfg msg headers hs hn, rfl, rfl⟩
    | false =>
      cases hg : greetAny msg.text with
      | true => exact ⟨_, reply_greet_eq cfg msg headers hs hn hg, rfl, rfl⟩
      | false => exact ⟨_, reply_default_eq cfg msg headers hs hn hg, rfl, rfl⟩

/-- Claim C6: rendering succeeds exactly when every placeholder the template
references is supplied; the three fixed templates reference only NAME and
BRAND_NAME, every table lookup the handler makes resolves, and the handler is
total — the error branch is unreachable at its call sites. -/
theorem render_template_total :
    (∀ t kw, (render_template t kw).isSome = true ↔
      ∃ fs, templateFields t = some fs ∧ ∀ f ∈ fs, (lookupKw kw f).isSome = true) ∧
    templateFields welcomeTemplate = some ["NAME", "BRAND_NAME"] ∧
    templateFields probeTemplate = some ["NAME"] ∧
    templateFields boundaryTemplate = some ["NAME"] ∧
    (tableLookup "boundary" "pro").isSome = true ∧
    (tableLookup "welcome" "warm").isSome = true ∧
    (tableLookup "probe" "pro").isSome = true ∧
    (∀ cfg msg headers, (reply cfg msg headers).isSome = true) := by
  refine ⟨?_, rfl, rfl, rfl, rfl, rfl, rfl, ?_⟩
  · intro t kw
    have hmap : (render_template t kw).isSome = (formatGo kw none t.data).isSome := by
      unfold render_template
      cases formatGo kw none t.data <;> rfl
    rw [hmap]
    exact formatGo_isSome_iff kw t.data none
  · intro cfg msg headers
    cases hs : is_spam msg.text with
    | true => rw [reply_spam_eq cfg msg headers hs]; rfl
    | false =>
      cases hn : strContains (lowerStr msg.text) "nurse" with
      | true => rw [reply_nurse_eq cfg msg headers hs hn]; rfl
      | false =>
        cases hg : greetAny msg.text with
        | true => rw [reply_greet_eq cfg msg headers hs hn hg]; rfl
        | false => rw [reply_default_eq cfg msg headers hs hn hg]; rfl

/-- Claim C7: is_spam lowercases and trims the text and is true iff one of the
5 fixed bad substrings occurs; hence for the text "please help??? crypto" the
handler returns the boundary template with no nurse_images, despite the
"please"/"help" urgency keywords. -/
theorem is_spam_spec :
    (∀ t, is_spam t = true ↔
      ∃ w ∈ ["buy followers", "crypto", "viagra", "casino", "loan"],
        strContains (stripStr (lowerStr t)) w = true) ∧
    (∀ cfg name headers, ∃ p,
      reply cfg { name := name, text := "please help??? crypto" } headers = some p ∧
      p.reply = boundaryReply name ∧ p.nurse_images = none) := by
  constructor
  · intro t
    simp [is_spam, List.any_eq_true]
  · intro cfg name headers
    have hs : is_spam "please help??? crypto" = true := by decide
    exact ⟨_, reply_spam_eq cfg { name := name, text := "please help??? crypto" } headers hs,
      rfl, rfl⟩

/-- Claim C8: GET /test-nurse returns exactly the nurse payload the /reply
handler would produce for the canned message Keith/"nurse", for every header
set; the platform field is still computed from the actual headers, and the
nurse_images block has the 4 keys. -/
theorem test_nurse_spec :
    ∀ (cfg : Config) (headers : List (String × String)),
      some (test_nurse cfg headers) = reply cfg { name := "Keith", text := "nurse" } headers ∧
      (test_nurse cfg headers).reply = nurse_greeting "Keith" ∧
      (test_nurse cfg headers).platform = detect_platform headers ∧
      (test_nurse cfg headers).manual_required = needs_manual_reply "nurse" ∧
      (test_nurse cfg headers).nurse_images = some (nurse_images cfg) ∧
      (nurse_images cfg).map Prod.fst = ["main", "curtain", "bed", "nil_by_mouth"] := by
  intro cfg headers
  refine ⟨?_, rfl, rfl, rfl, rfl, rfl⟩
  rw [reply_nurse_eq cfg { name := "Keith", text := "nurse" } headers (by decide) (by decide)]
  rfl

/-- Claim C9: pick returns the head of a list (the empty string on an empty
list), each category/style maps to a singleton list, and consequently every
rendered reply is one of four fixed shapes — the first (and only) template of
the chosen list. -/
theorem pick_head_spec :
    (∀ lst : List String, pick lst = lst.headD "") ∧
    tableLookup "welcome" "warm" = some [welcomeTemplate] ∧
    tableLookup "probe" "pro" = some [probeTemplate] ∧
    tableLookup "boundary" "pro" = some [boundaryTemplate] ∧
    (∀ (cfg : Config) (msg : Message) headers,
      ∃ p, reply cfg msg headers = some p ∧
        (p.reply = boundaryReply msg.name ∨ p.reply = nurse_greeting msg.name ∨
         p.reply = welcomeReply msg.name cfg.BRAND_NAME ∨ p.reply = probeReply msg.name)) := by
  refine ⟨?_, rfl, rfl, rfl, ?_⟩
  · intro lst
    cases lst <;> rfl
  · intro cfg msg headers
    cases hs : is_spam msg.text with
    | true => exact ⟨_, reply_spam_eq cfg msg headers hs, Or.inl rfl⟩
    | false =>
      cases hn : strContains (lowerStr msg.text) "nurse" with
      | true => exact ⟨_, reply_nurse_eq cfg msg headers hs hn, Or.inr (Or.inl rfl)⟩
      | false =>
        cases hg : greetAny msg.text with
        | true =>
          exact ⟨_, reply_greet_eq cfg msg headers hs hn hg, Or.inr (Or.inr (Or.inl rfl))⟩
        | false =>
          exact ⟨_, reply_default_eq cfg msg headers hs hn hg, Or.inr (Or.inr (Or.inr rfl))⟩

/-- Claim C10: the greeting branch matches by plain substring on the lowercased
text — whenever a non-spam, non-nurse text contains "hi", "hello", "hey" or
"yo" anywhere (also inside longer words), the welcome/warm template is
returned instead of the probe default. -/
theorem greeting_substring_spec :
    ∀ (cfg : Config) (msg : Message) (headers : List (String × String)),
      is_spam msg.text = false →
      strContains (lowerStr msg.text) "nurse" = false →
      greetAny msg.text = true →
      ∃ p, reply cfg msg headers = some p ∧
        p.reply = welcomeReply msg.name cfg.BRAND_NAME ∧ p.nurse_images = none := by
  intro cfg msg headers h1 h2 h3
  exact ⟨_, reply_greet_eq cfg msg headers h1 h2 h3, rfl, rfl⟩

/-- Claim C10, witness: "this band rules" contains "hi" only inside "this",
yet the welcome template is returned. -/
theorem greeting_substring_spec_witness :
    strContains (lowerStr "this band rules") "hi" = true ∧
    (∃ p, reply defaultConfig { name := "Ana", text := "this band rules" } [] = some p ∧
      p.reply = welcomeReply "Ana" defaultConfig.BRAND_NAME ∧ p.nurse_images = none) :=
  ⟨by decide,
   greeting_substring_spec defaultConfig { name := "Ana", text := "this band rules" } []
     (by decide) (by decide) (by decide)⟩

end FgbBot
